import Mathlib

/-!
Verification of `tools/migrate.py`: a configuration loader (`load_dotenv`)
and a SQL migration runner (`main`).  Strings are modelled as lists of
characters (`PyStr`); the process environment as an association list; the
filesystem and database driver as explicit oracle inputs.
-/

/-- Python strings, modelled as lists of characters. -/
abbrev PyStr := List Char

/-- The apostrophe character (code point 39). -/
def sqC : Char := Char.ofNat 39

/-- The double-quote character (code point 34). -/
def dqC : Char := Char.ofNat 34

/-- Python `str.strip(chars)`: remove characters satisfying `p` from both
ends of the string. -/
def pyStrip (p : Char → Bool) (s : PyStr) : PyStr :=
  ((s.dropWhile p).reverse.dropWhile p).reverse

/-- Python `str.strip()` with no argument: trim whitespace from both ends. -/
def pyStripWs : PyStr → PyStr := pyStrip Char.isWhitespace

/-- Python `str.strip(c)` for a single character `c`: remove every leading
and trailing occurrence of `c`. -/
def pyStripChar (c : Char) : PyStr → PyStr := pyStrip (fun x => x == c)

/-- The value transformation of `load_dotenv` (migrate.py line 17):
`value.strip().strip(sqC).strip(dqC)`. -/
def parseValue (s : PyStr) : PyStr := pyStripChar dqC (pyStripChar sqC (pyStripWs s))

/-- The process environment `os.environ`: an association list from variable
names to values. -/
abbrev Env := List (PyStr × PyStr)

/-- Lookup `os.environ.get(k)` / `os.getenv(k)`: the value bound to `k`, if any. -/
def envGet (env : Env) (k : PyStr) : Option PyStr :=
  (env.find? (fun p => p.1 == k)).map (fun p => p.2)

/-- Python `k in os.environ`: key presence, regardless of the bound value. -/
def envHas (env : Env) (k : PyStr) : Bool := (envGet env k).isSome

/-- Assignment of `v` to `os.environ` at a key `k` not yet present. -/
def envSet (env : Env) (k v : PyStr) : Env := env ++ [(k, v)]

/-- The guard of the `continue` in `load_dotenv` (migrate.py line 13):
the stripped line is empty, starts with `#`, or has no `=`. -/
def skippedLine (line : PyStr) : Bool :=
  (pyStripWs line).isEmpty || (pyStripWs line).head? == some '#' ||
    !((pyStripWs line).contains '=')

/-- The body of the `for line in ...` loop of `load_dotenv`
(migrate.py lines 12-19): strip the line, skip blanks, comments and lines
without `=`, split on the first `=`, strip key and value, and set the key
only when it is non-empty and absent from the environment. -/
def processLine (env : Env) (line : PyStr) : Env :=
  if skippedLine line then env
  else
    let raw := pyStripWs line
    let key := pyStripWs (raw.takeWhile (fun c => !(c == '=')))
    let value := parseValue ((raw.dropWhile (fun c => !(c == '='))).tail)
    if !key.isEmpty && !(envHas env key) then envSet env key value else env

/-- Function `load_dotenv(dotenv_path)` (migrate.py lines 8-19): if the path is not a
file, do nothing; otherwise fold the line processor over the file's lines. -/
def load_dotenv (isFile : Bool) (lines : List PyStr) (env : Env) : Env :=
  if isFile then lines.foldl processLine env else env

/-- A quote character in the sense of the spec: apostrophe or double quote. -/
def isQuoteChar (c : Char) : Bool := c == sqC || c == dqC

/-- Spec-side definition, following the spec's words for comparison with
`parseValue`: if the trimmed value is wrapped in a single matching pair of
quote characters, strip exactly one such pair; otherwise keep the value
(with its quote characters) intact. -/
def specQuoteStrip (s : PyStr) : PyStr :=
  let t := pyStripWs s
  if 2 ≤ t.length && t.head? == t.getLast? && t.head?.any isQuoteChar then
    t.tail.dropLast
  else t

/-- Lexicographic (code-point) comparison of strings, as Python's `sorted`
uses on the filenames produced by `glob`. -/
def lexLe : PyStr → PyStr → Bool
  | [], _ => true
  | _ :: _, [] => false
  | a :: as, b :: bs => if a = b then lexLe as bs else decide (a < b)

/-- Python `sorted` on the discovered filenames: a stable sort under the
lexicographic order (modelled by insertion sort, which agrees with any sort
for this antisymmetric total order). -/
def sortFiles (l : List PyStr) : List PyStr :=
  List.insertionSort (fun a b => lexLe a b = true) l

/-- The `glob` pattern of migrate.py line 36: a filename matches `*.sql`
exactly when it ends with `.sql`. -/
def sqlFile (name : PyStr) : Bool := ".sql".data.isSuffixOf name

/-- Console line `Running <name>...` (migrate.py line 46). -/
def runningLine (name : PyStr) : PyStr := "Running ".data ++ name ++ "...".data

/-- Console line `Migration failed: <msg>` (migrate.py line 50). -/
def failLine (msg : PyStr) : PyStr := "Migration failed: ".data ++ msg

/-- Console line printed on success (migrate.py line 53). -/
def successLine : PyStr := "Migrations applied.".data

/-- Console line for a missing connection string (migrate.py line 27). -/
def notSetLine : PyStr := "DATABASE_URL is not set.".data

/-- Console line for an empty migration set (migrate.py line 38). -/
def noFilesLine : PyStr := "No migration files found.".data

/-- Console line for a missing migrations directory (migrate.py line 32). -/
def dirNotFoundLine (dir : PyStr) : PyStr :=
  "migrations directory not found: ".data ++ dir

/-- The name of the connection-string environment variable. -/
def dbKey : PyStr := "DATABASE_URL".data

/-- Oracle for the effectful steps of the `try` block: outcome of
`psycopg.connect`, of each `path.read_text`, of each `cur.execute`, and of
`conn.commit`.  `.error msg` models the step raising an exception whose
`str` is `msg`. -/
structure DbOracle where
  connectR : Except PyStr Unit
  readR : PyStr → Except PyStr PyStr
  execR : PyStr → Except PyStr Unit
  commitR : Except PyStr Unit

/-- Observables of one run of `main`: console output in order, the return
value (process exit status), how many successful commits happened, whether
`psycopg.connect` was reached, which files were passed to `cur.execute` in
order, and the exception caught by the `except` clause, if any. -/
structure RunResult where
  output : List PyStr
  exitCode : Nat
  commits : Nat
  connectAttempted : Bool
  executed : List PyStr
  err : Option PyStr
deriving Repr, DecidableEq

/-- The `for path in files` loop of migrate.py lines 44-47: for each file,
read its text (may raise), print the progress line, execute the SQL (may
raise).  Returns the printed lines, the files passed to `cur.execute`, and
the first exception raised, if any. -/
def runLoop (db : DbOracle) : List PyStr → List PyStr × List PyStr × Option PyStr
  | [] => ([], [], none)
  | f :: rest =>
      match db.readR f with
      | .error e => ([], [], some e)
      | .ok sql =>
          match db.execR sql with
          | .error e => ([runningLine f], [f], some e)
          | .ok _ =>
              let r := runLoop db rest
              (runningLine f :: r.1, f :: r.2.1, r.2.2)

/-- The `try`/`except` region of migrate.py lines 41-54: connect, run the
loop, commit, print the success line; any exception is caught and reported
as `Migration failed: <msg>` with return value 1. -/
def runMigrations (db : DbOracle) (files : List PyStr) : RunResult :=
  match db.connectR with
  | .error e => ⟨[failLine e], 1, 0, true, [], some e⟩
  | .ok _ =>
      let t := runLoop db files
      match t.2.2 with
      | some e => ⟨t.1 ++ [failLine e], 1, 0, true, t.2.1, some e⟩
      | none =>
          match db.commitR with
          | .error e => ⟨t.1 ++ [failLine e], 1, 0, true, t.2.1, some e⟩
          | .ok _ => ⟨t.1 ++ [successLine], 0, 1, true, t.2.1, none⟩

/-- Function `main()` (migrate.py lines 22-54): load the dotenv file, require a
non-empty `DATABASE_URL`, require the migrations directory, glob and sort
the `*.sql` files, require at least one, then run them in one transaction.
The filesystem is an oracle: `isFile`/`dotenvLines` describe the `.env`
file, `dirExists`/`dirFiles` the migrations directory. -/
def mainRun (isFile : Bool) (dotenvLines : List PyStr) (env0 : Env)
    (dirExists : Bool) (dirFiles : List PyStr) (db : DbOracle) : RunResult :=
  match envGet (load_dotenv isFile dotenvLines env0) dbKey with
  | none => ⟨[notSetLine], 1, 0, false, [], none⟩
  | some url =>
      if url.isEmpty then ⟨[notSetLine], 1, 0, false, [], none⟩
      else if !dirExists then
        ⟨[dirNotFoundLine "<migrations_dir>".data], 1, 0, false, [], none⟩
      else if (sortFiles (dirFiles.filter sqlFile)).isEmpty then
        ⟨[noFilesLine], 1, 0, false, [], none⟩
      else runMigrations db (sortFiles (dirFiles.filter sqlFile))

/-- An oracle on which every database step succeeds. -/
def dbAllOk : DbOracle := ⟨.ok (), fun f => .ok ("sql of ".data ++ f), fun _ => .ok (), .ok ()⟩

/-- An oracle whose second file's execution raises `syntax error at x`. -/
def dbExecFails : DbOracle :=
  ⟨.ok (), fun f => .ok ("sql of ".data ++ f),
    fun s => if s = "sql of ".data ++ "002_b.sql".data
      then .error "syntax error at x".data else .ok (),
    .ok ()⟩

/-- An oracle on which connect, reads and executes succeed but the final
commit raises `connection closed`. -/
def dbCommitFails : DbOracle :=
  ⟨.ok (), fun f => .ok ("sql of ".data ++ f), fun _ => .ok (),
    .error "connection closed".data⟩

/-- An oracle where reading `002_b.sql` raises `permission denied` and
everything else succeeds. -/
def dbReadFails : DbOracle :=
  ⟨.ok (), fun f => if f = "002_b.sql".data then .error "permission denied".data
      else .ok ("sql of ".data ++ f),
    fun _ => .ok (), .ok ()⟩

theorem envGet_append_of_has (env env2 : Env) (k : PyStr) (hk : envHas env k = true) :
    envGet (env ++ env2) k = envGet env k := by
  unfold envHas envGet at *
  rw [List.find?_append]
  cases hfind : env.find? (fun p => p.1 == k) with
  | none => rw [hfind] at hk; simp at hk
  | some p => simp [hfind, Option.orElse]

theorem envHas_append_of_has (env env2 : Env) (k : PyStr) (hk : envHas env k = true) :
    envHas (env ++ env2) k = true := by
  unfold envHas
  rw [envGet_append_of_has env env2 k hk]
  exact hk

theorem envGet_processLine (env : Env) (line k : PyStr) (hk : envHas env k = true) :
    envGet (processLine env line) k = envGet env k := by
  unfold processLine
  split
  · rfl
  · dsimp only
    split
    · exact envGet_append_of_has env _ k hk
    · rfl

theorem envHas_processLine (env : Env) (line k : PyStr) (hk : envHas env k = true) :
    envHas (processLine env line) k = true := by
  unfold envHas
  rw [envGet_processLine env line k hk]
  exact hk

theorem envGet_foldl_processLine (lines : List PyStr) (env : Env) (k : PyStr)
    (hk : envHas env k = true) :
    envGet (lines.foldl processLine env) k = envGet env k := by
  induction lines generalizing env with
  | nil => rfl
  | cons l ls ih =>
      rw [List.foldl_cons, ih (processLine env l) (envHas_processLine env l k hk),
        envGet_processLine env l k hk]

theorem envHas_foldl_processLine (lines : List PyStr) (env : Env) (k : PyStr)
    (hk : envHas env k = true) :
    envHas (lines.foldl processLine env) k = true := by
  unfold envHas
  rw [envGet_foldl_processLine lines env k hk]
  exact hk

theorem load_dotenv_keeps (isFile : Bool) (lines : List PyStr) (env : Env)
    (k : PyStr) (hk : envHas env k = true) :
    envGet (load_dotenv isFile lines env) k = envGet env k := by
  unfold load_dotenv
  split
  · exact envGet_foldl_processLine lines env k hk
  · rfl

/-- C2: a key already present in the process environment before `load_dotenv`
runs keeps its value: the loader only sets keys that were absent. -/
theorem loader_never_overwrites (isFile : Bool) (lines : List PyStr) (env : Env)
    (k : PyStr) (hk : envHas env k = true) :
    envGet (load_dotenv isFile lines env) k = envGet env k :=
  load_dotenv_keeps isFile lines env k hk

/-- C2 witness: the loader does not overwrite `A`, already bound to `x`,
even though the file binds `A=y`. -/
theorem loader_never_overwrites_witness :
    envHas [("A".data, "x".data)] "A".data = true ∧
      envGet (load_dotenv true ["A=y".data] [("A".data, "x".data)]) "A".data =
        envGet [("A".data, "x".data)] "A".data :=
  ⟨by decide, loader_never_overwrites true ["A=y".data] [("A".data, "x".data)]
    "A".data (by decide)⟩

theorem processLine_skip (env : Env) (line : PyStr) (h : skippedLine line = true) :
    processLine env line = env := by
  unfold processLine
  rw [if_pos h]

/-- C8: a line that is blank after trimming, or starts with `#` after
trimming, or contains no `=` separator, contributes nothing: removing it
from the file leaves the loader's result unchanged on every environment. -/
theorem ignored_line_contributes_nothing (isFile : Bool) (pre post : List PyStr)
    (line : PyStr) (env : Env) (h : skippedLine line = true) :
    load_dotenv isFile (pre ++ line :: post) env = load_dotenv isFile (pre ++ post) env := by
  unfold load_dotenv
  split
  · rw [List.foldl_append, List.foldl_append, List.foldl_cons,
      processLine_skip (pre.foldl processLine env) line h]
  · rfl

/-- C8 witness: a comment line between `A=1` and `B=2` contributes nothing. -/
theorem ignored_line_contributes_nothing_witness :
    skippedLine "# comment".data = true ∧
    load_dotenv true (["A=1".data] ++ "# comment".data :: ["B=2".data]) [] =
      load_dotenv true (["A=1".data] ++ ["B=2".data]) [] :=
  ⟨by decide, ignored_line_contributes_nothing true ["A=1".data] ["B=2".data]
    "# comment".data [] (by decide)⟩

theorem dropWhile_eq_self_of_head (p : Char → Bool) (L : PyStr)
    (h : ∀ c, L.head? = some c → p c = false) : L.dropWhile p = L := by
  cases L with
  | nil => rfl
  | cons a as => rw [List.dropWhile_cons, if_neg (by simp [h a rfl])]

theorem pyStrip_noop (p : Char → Bool) (L : PyStr)
    (hh : ∀ c, L.head? = some c → p c = false)
    (hl : ∀ c, L.getLast? = some c → p c = false) : pyStrip p L = L := by
  unfold pyStrip
  rw [dropWhile_eq_self_of_head p L hh,
    dropWhile_eq_self_of_head p L.reverse
      (fun c hc => hl c (by rwa [List.head?_reverse] at hc)),
    List.reverse_reverse]

theorem pyStrip_wrap (p : Char → Bool) (q : Char) (i : PyStr) (hq : p q = true)
    (hh : ∀ c, i.head? = some c → p c = false)
    (hl : ∀ c, i.getLast? = some c → p c = false) :
    pyStrip p (q :: i ++ [q]) = i := by
  cases i with
  | nil => simp [pyStrip, List.dropWhile_cons, hq]
  | cons x xs =>
      have hx : p x = false := hh x rfl
      unfold pyStrip
      have h1 : List.dropWhile p (q :: (x :: xs) ++ [q]) = (x :: xs) ++ [q] := by
        rw [List.cons_append, List.dropWhile_cons, if_pos hq, List.cons_append,
          List.dropWhile_cons, if_neg (by simp [hx])]
      have h2 : ((x :: xs) ++ [q]).reverse = q :: (x :: xs).reverse := by
        simp
      have h3 : List.dropWhile p (q :: (x :: xs).reverse) = (x :: xs).reverse := by
        rw [List.dropWhile_cons, if_pos hq]
        exact dropWhile_eq_self_of_head p (x :: xs).reverse
          (fun c hc => hl c (by rwa [List.head?_reverse] at hc))
      rw [h1, h2, h3, List.reverse_reverse]

theorem not_quote_sq (c : Char) (h : isQuoteChar c = false) : (c == sqC) = false := by
  unfold isQuoteChar at h
  exact (Bool.or_eq_false_iff.mp h).1

theorem not_quote_dq (c : Char) (h : isQuoteChar c = false) : (c == dqC) = false := by
  unfold isQuoteChar at h
  exact (Bool.or_eq_false_iff.mp h).2

theorem getLast_wrap (q : Char) (i : PyStr) : (q :: i ++ [q]).getLast? = some q :=
  List.getLast?_concat (q :: i)

/-- C1 counterexample: the value whose trimmed form is `'a"` (apostrophe,
`a`, double quote) is not wrapped in a matching pair of quotes, so by the
claim it should be stored with its quote characters intact (as
`specQuoteStrip` does); but the loader stores it as `a`, both quote
characters removed. -/
theorem quote_strip_claim_cex :
    specQuoteStrip [sqC, 'a', dqC] = [sqC, 'a', dqC] ∧
    parseValue [sqC, 'a', dqC] = ['a'] ∧
    envGet (load_dotenv true [('K' :: '=' :: [sqC, 'a', dqC])] []) ['K'] = some ['a'] := by
  decide

/-- C1 amended: `load_dotenv` removes all leading and trailing apostrophes,
then all leading and trailing double quotes from the trimmed value (Python
`str.strip` semantics); hence when the trimmed value is wrapped in a single
matching pair of quote characters and its interior neither starts nor ends
with a quote character, exactly that one pair is stripped. -/
theorem quote_strip_one_pair (s : PyStr) (q : Char) (i : PyStr)
    (hq : isQuoteChar q = true)
    (ht : pyStripWs s = q :: i ++ [q])
    (hh : ∀ c, i.head? = some c → isQuoteChar c = false)
    (hl : ∀ c, i.getLast? = some c → isQuoteChar c = false) :
    parseValue s = i := by
  unfold parseValue
  rw [ht]
  have hq2 : q = sqC ∨ q = dqC := by
    unfold isQuoteChar at hq
    rcases Bool.or_eq_true_iff.mp hq with h | h
    · exact Or.inl (by simpa using h)
    · exact Or.inr (by simpa using h)
  unfold pyStripChar
  rcases hq2 with rfl | rfl
  · rw [pyStrip_wrap (fun x => x == sqC) sqC i (by decide)
      (fun c hc => not_quote_sq c (hh c hc)) (fun c hc => not_quote_sq c (hl c hc))]
    exact pyStrip_noop _ i
      (fun c hc => not_quote_dq c (hh c hc)) (fun c hc => not_quote_dq c (hl c hc))
  · rw [pyStrip_noop (fun x => x == sqC) (dqC :: i ++ [dqC])
      (fun c hc => by simp at hc; subst hc; decide)
      (fun c hc => by rw [getLast_wrap] at hc; cases hc; decide)]
    exact pyStrip_wrap (fun x => x == dqC) dqC i (by decide)
      (fun c hc => not_quote_dq c (hh c hc)) (fun c hc => not_quote_dq c (hl c hc))

/-- C1 amended witness: the value `'ab'` (wrapped in one pair of
apostrophes, clean interior) is stored as `ab`. -/
theorem quote_strip_one_pair_witness :
    isQuoteChar sqC = true ∧ pyStripWs [sqC, 'a', 'b', sqC] = sqC :: ['a', 'b'] ++ [sqC] ∧
      parseValue [sqC, 'a', 'b', sqC] = ['a', 'b'] :=
  ⟨by decide, by decide,
    quote_strip_one_pair [sqC, 'a', 'b', sqC] sqC ['a', 'b'] (by decide) (by decide)
      (fun c hc => by simp at hc; subst hc; decide)
      (fun c hc => by simp at hc; subst hc; decide)⟩

theorem lexLe_total (a b : PyStr) : lexLe a b = true ∨ lexLe b a = true := by
  induction a generalizing b with
  | nil => exact Or.inl rfl
  | cons x xs ih =>
      cases b with
      | nil => exact Or.inr rfl
      | cons y ys =>
          unfold lexLe
          by_cases hxy : x = y
          · subst hxy
            simpa using ih ys
          · rw [if_neg hxy, if_neg (Ne.symm hxy)]
            rcases lt_or_gt_of_ne hxy with h | h
            · exact Or.inl (by simpa using h)
            · exact Or.inr (by simpa using h)

theorem lexLe_trans (a b c : PyStr) (hab : lexLe a b = true) (hbc : lexLe b c = true) :
    lexLe a c = true := by
  induction a generalizing b c with
  | nil => rfl
  | cons x xs ih =>
      cases b with
      | nil => simp [lexLe] at hab
      | cons y ys =>
          cases c with
          | nil => simp [lexLe] at hbc
          | cons z zs =>
              unfold lexLe at hab hbc ⊢
              by_cases hxy : x = y
              · subst hxy
                rw [if_pos rfl] at hab
                by_cases hxz : x = z
                · subst hxz
                  rw [if_pos rfl] at hbc ⊢
                  exact ih ys zs hab hbc
                · rw [if_neg hxz] at hbc ⊢
                  exact hbc
              · rw [if_neg hxy] at hab
                have hxy2 : x < y := by simpa using hab
                by_cases hyz : y = z
                · subst hyz
                  rw [if_neg hxy]
                  simpa using hxy2
                · rw [if_neg hyz] at hbc
                  have hyz2 : y < z := by simpa using hbc
                  have hxz2 : x < z := lt_trans hxy2 hyz2
                  rw [if_neg (ne_of_lt hxz2)]
                  simpa using hxz2

theorem failLine_ne_success (e : PyStr) : failLine e ≠ successLine := by
  intro h
  have h9 : (failLine e)[9]? = successLine[9]? := by rw [h]
  rw [failLine, List.getElem?_append_left (by decide)] at h9
  revert h9
  decide

theorem pos_len_append_left (a b : PyStr) (h : 0 < a.length) : 0 < (a ++ b).length := by
  rw [List.length_append]
  omega

theorem running_ne_success (f : PyStr) : runningLine f ≠ successLine := by
  intro h
  have h0 : (runningLine f)[0]? = successLine[0]? := by rw [h]
  rw [runningLine, List.getElem?_append_left
    (pos_len_append_left "Running ".data f (by decide)),
    List.getElem?_append_left (by decide)] at h0
  revert h0
  decide

theorem running_ne_fail (f e : PyStr) : runningLine f ≠ failLine e := by
  intro h
  have h0 : (runningLine f)[0]? = (failLine e)[0]? := by rw [h]
  rw [runningLine, failLine, List.getElem?_append_left
    (pos_len_append_left "Running ".data f (by decide)),
    List.getElem?_append_left (by decide),
    List.getElem?_append_left (by decide)] at h0
  revert h0
  decide

theorem runningLine_inj (f g : PyStr) (h : runningLine f = runningLine g) : f = g := by
  unfold runningLine at h
  exact List.append_cancel_left (List.append_cancel_right h)

theorem success_not_mem_running (ex : List PyStr) :
    successLine ∉ ex.map runningLine := by
  intro h
  rcases List.mem_map.mp h with ⟨f, _, hf⟩
  exact running_ne_success f hf

theorem runLoop_fst_eq (db : DbOracle) (files : List PyStr) :
    (runLoop db files).1 = (runLoop db files).2.1.map runningLine := by
  induction files with
  | nil => rfl
  | cons f rest ih =>
      cases hr : db.readR f with
      | error e => simp [runLoop, hr]
      | ok sql =>
          cases he : db.execR sql with
          | error e => simp [runLoop, hr, he]
          | ok u => simp [runLoop, hr, he, ih]

theorem runMigrations_err_shape (db : DbOracle) (files : List PyStr) (e : PyStr)
    (h : (runMigrations db files).err = some e) :
    ∃ ex : List PyStr,
      (runMigrations db files).output = ex.map runningLine ++ [failLine e] ∧
      (runMigrations db files).commits = 0 ∧ (runMigrations db files).exitCode = 1 := by
  cases hc : db.connectR with
  | error e2 =>
      have he : e2 = e := by simpa [runMigrations, hc] using h
      subst he
      exact ⟨[], by simp [runMigrations, hc]⟩
  | ok u =>
      rcases ht : runLoop db files with ⟨out, ex, err⟩
      have hout : out = ex.map runningLine := by
        have h2 := runLoop_fst_eq db files
        rw [ht] at h2
        exact h2
      cases err with
      | some e2 =>
          have he : e2 = e := by simpa [runMigrations, hc, ht] using h
          subst he
          exact ⟨ex, by simp [runMigrations, hc, ht, hout]⟩
      | none =>
          cases hcm : db.commitR with
          | error e2 =>
              have he : e2 = e := by simpa [runMigrations, hc, ht, hcm] using h
              subst he
              exact ⟨ex, by simp [runMigrations, hc, ht, hcm, hout]⟩
          | ok u2 => simp [runMigrations, hc, ht, hcm] at h

/-- C4: whenever a step from connection-open through execution or commit
raises, the exception is caught: the last output line is
`Migration failed: <msg>` with the exception's message verbatim, the
success line is never printed, nothing is committed, and the exit status
is 1. -/
theorem migration_error_caught (isFile : Bool) (lines : List PyStr) (env0 : Env)
    (dirExists : Bool) (dirFiles : List PyStr) (db : DbOracle) (e : PyStr)
    (h : (mainRun isFile lines env0 dirExists dirFiles db).err = some e) :
    (mainRun isFile lines env0 dirExists dirFiles db).output.getLast?
        = some (failLine e) ∧
      successLine ∉ (mainRun isFile lines env0 dirExists dirFiles db).output ∧
      (mainRun isFile lines env0 dirExists dirFiles db).commits = 0 ∧
      (mainRun isFile lines env0 dirExists dirFiles db).exitCode = 1 := by
  have hdisp : mainRun isFile lines env0 dirExists dirFiles db
      = runMigrations db (sortFiles (dirFiles.filter sqlFile)) := by
    unfold mainRun at h ⊢
    cases hu : envGet (load_dotenv isFile lines env0) dbKey with
    | none => rw [hu] at h; simp at h
    | some url =>
        rw [hu] at h
        dsimp only at h ⊢
        by_cases hurl : url.isEmpty
        · rw [if_pos hurl] at h; simp at h
        · rw [if_neg hurl] at h ⊢
          cases dirExists with
          | false => simp at h
          | true =>
              rw [Bool.not_true, if_neg Bool.false_ne_true] at h ⊢
              by_cases hf : (sortFiles (dirFiles.filter sqlFile)).isEmpty
              · rw [if_pos hf] at h; simp at h
              · rw [if_neg hf]
  rw [hdisp] at h ⊢
  rcases runMigrations_err_shape db (sortFiles (dirFiles.filter sqlFile)) e h
    with ⟨ex, hout, hcm, hex⟩
  refine ⟨?_, ?_, hcm, hex⟩
  · rw [hout, List.getLast?_concat]
  · rw [hout]
    intro hmem
    rcases List.mem_append.mp hmem with hm | hm
    · exact success_not_mem_running ex hm
    · exact failLine_ne_success e (List.mem_singleton.mp hm).symm

/-- C4 witness: with two files where the second one's SQL raises, the run
reports the failure verbatim, prints no success line, commits nothing and
exits with 1. -/
theorem migration_error_caught_witness :
    (mainRun true [] [(dbKey, "u".data)] true
        ["002_b.sql".data, "001_a.sql".data] dbExecFails).err
        = some "syntax error at x".data ∧
      ((mainRun true [] [(dbKey, "u".data)] true
        ["002_b.sql".data, "001_a.sql".data] dbExecFails).output.getLast?
          = some (failLine "syntax error at x".data) ∧
        successLine ∉ (mainRun true [] [(dbKey, "u".data)] true
          ["002_b.sql".data, "001_a.sql".data] dbExecFails).output ∧
        (mainRun true [] [(dbKey, "u".data)] true
          ["002_b.sql".data, "001_a.sql".data] dbExecFails).commits = 0 ∧
        (mainRun true [] [(dbKey, "u".data)] true
          ["002_b.sql".data, "001_a.sql".data] dbExecFails).exitCode = 1) :=
  ⟨by decide, migration_error_caught true [] [(dbKey, "u".data)] true
    ["002_b.sql".data, "001_a.sql".data] dbExecFails "syntax error at x".data (by decide)⟩

theorem mainRun_notSet (isFile : Bool) (lines : List PyStr) (env0 : Env)
    (dirExists : Bool) (dirFiles : List PyStr) (db : DbOracle)
    (h : envGet (load_dotenv isFile lines env0) dbKey = none ∨
      envGet (load_dotenv isFile lines env0) dbKey = some []) :
    mainRun isFile lines env0 dirExists dirFiles db
      = ⟨[notSetLine], 1, 0, false, [], none⟩ := by
  unfold mainRun
  rcases h with h | h
  · rw [h]
  · rw [h]
    dsimp only
    rw [if_pos (show ([] : PyStr).isEmpty = true from rfl)]

/-- C6: when `DATABASE_URL` is unset or empty after the loader runs, the run
prints exactly `DATABASE_URL is not set.`, never attempts a connection, and
returns exit status 1. -/
theorem missing_url_reported (isFile : Bool) (lines : List PyStr) (env0 : Env)
    (dirExists : Bool) (dirFiles : List PyStr) (db : DbOracle)
    (h : envGet (load_dotenv isFile lines env0) dbKey = none ∨
      envGet (load_dotenv isFile lines env0) dbKey = some []) :
    (mainRun isFile lines env0 dirExists dirFiles db).output = [notSetLine] ∧
      (mainRun isFile lines env0 dirExists dirFiles db).connectAttempted = false ∧
      (mainRun isFile lines env0 dirExists dirFiles db).exitCode = 1 := by
  rw [mainRun_notSet isFile lines env0 dirExists dirFiles db h]
  exact ⟨rfl, rfl, rfl⟩

/-- C6 witness: with no `.env` file and an empty initial environment, the
runner reports the missing variable without connecting. -/
theorem missing_url_reported_witness :
    (envGet (load_dotenv false [] []) dbKey = none ∨
      envGet (load_dotenv false [] []) dbKey = some []) ∧
      ((mainRun false [] [] true ["001_a.sql".data] dbAllOk).output = [notSetLine] ∧
        (mainRun false [] [] true ["001_a.sql".data] dbAllOk).connectAttempted = false ∧
        (mainRun false [] [] true ["001_a.sql".data] dbAllOk).exitCode = 1) :=
  ⟨Or.inl (by decide),
    missing_url_reported false [] [] true ["001_a.sql".data] dbAllOk (Or.inl (by decide))⟩

/-- C7: when the migrations directory exists but no filename matches
`*.sql`, the run prints exactly `No migration files found.`, never attempts
a connection, and returns exit status 1. -/
theorem no_files_reported (isFile : Bool) (lines : List PyStr) (env0 : Env)
    (dirFiles : List PyStr) (db : DbOracle) (url : PyStr)
    (hurl : envGet (load_dotenv isFile lines env0) dbKey = some url)
    (hne : url ≠ [])
    (hempty : dirFiles.filter sqlFile = []) :
    (mainRun isFile lines env0 true dirFiles db).output = [noFilesLine] ∧
      (mainRun isFile lines env0 true dirFiles db).connectAttempted = false ∧
      (mainRun isFile lines env0 true dirFiles db).exitCode = 1 := by
  unfold mainRun
  rw [hurl]
  dsimp only
  rw [if_neg (by simpa [List.isEmpty_iff] using hne), Bool.not_true,
    if_neg Bool.false_ne_true, if_pos (by rw [hempty]; rfl)]
  exact ⟨rfl, rfl, rfl⟩

/-- C7 witness: a directory holding only `readme.txt` yields the
empty-migration-set error with no connection attempt. -/
theorem no_files_reported_witness :
    envGet (load_dotenv false [] [(dbKey, "u".data)]) dbKey = some "u".data ∧
      ((mainRun false [] [(dbKey, "u".data)] true ["readme.txt".data] dbAllOk).output
          = [noFilesLine] ∧
        (mainRun false [] [(dbKey, "u".data)] true
          ["readme.txt".data] dbAllOk).connectAttempted = false ∧
        (mainRun false [] [(dbKey, "u".data)] true
          ["readme.txt".data] dbAllOk).exitCode = 1) :=
  ⟨by decide, no_files_reported false [] [(dbKey, "u".data)] ["readme.txt".data]
    dbAllOk "u".data (by decide) (by decide) (by decide)⟩

/-- C9: `DATABASE_URL` bound to the empty string before the loader runs
counts as present, so a dotenv entry for it does not take effect: the
runner still reports `DATABASE_URL is not set.` and returns 1. -/
theorem empty_preexisting_url_wins (isFile : Bool) (lines : List PyStr) (env0 : Env)
    (dirExists : Bool) (dirFiles : List PyStr) (db : DbOracle)
    (h0 : envGet env0 dbKey = some []) :
    envGet (load_dotenv isFile lines env0) dbKey = some [] ∧
      (mainRun isFile lines env0 dirExists dirFiles db).output = [notSetLine] ∧
      (mainRun isFile lines env0 dirExists dirFiles db).exitCode = 1 := by
  have hk : envHas env0 dbKey = true := by unfold envHas; rw [h0]; rfl
  have hpres : envGet (load_dotenv isFile lines env0) dbKey = some [] := by
    rw [load_dotenv_keeps isFile lines env0 dbKey hk, h0]
  rw [mainRun_notSet isFile lines env0 dirExists dirFiles db (Or.inr hpres)]
  exact ⟨hpres, rfl, rfl⟩

/-- C9 witness: with `DATABASE_URL` preset to the empty string and a dotenv
line binding it to a non-empty URL, the runner still reports it unset. -/
theorem empty_preexisting_url_wins_witness :
    envGet [(dbKey, [])] dbKey = some [] ∧
      (envGet (load_dotenv true ["DATABASE_URL=postgres://h/d".data] [(dbKey, [])]) dbKey
          = some [] ∧
        (mainRun true ["DATABASE_URL=postgres://h/d".data] [(dbKey, [])] true
          ["001_a.sql".data] dbAllOk).output = [notSetLine] ∧
        (mainRun true ["DATABASE_URL=postgres://h/d".data] [(dbKey, [])] true
          ["001_a.sql".data] dbAllOk).exitCode = 1) :=
  ⟨by decide, empty_preexisting_url_wins true ["DATABASE_URL=postgres://h/d".data]
    [(dbKey, [])] true ["001_a.sql".data] dbAllOk (by decide)⟩

theorem runLoop_ok (db : DbOracle) (files : List PyStr)
    (h : ∀ f ∈ files, ∃ s, db.readR f = .ok s ∧ db.execR s = .ok ()) :
    runLoop db files = (files.map runningLine, files, none) := by
  induction files with
  | nil => rfl
  | cons f rest ih =>
      rcases h f (List.mem_cons_self f rest) with ⟨s, hr, he⟩
      simp [runLoop, hr, he, ih (fun g hg => h g (List.mem_cons_of_mem f hg))]

theorem runMigrations_all_ok (db : DbOracle) (files : List PyStr)
    (hconn : db.connectR = .ok ())
    (h : ∀ f ∈ files, ∃ s, db.readR f = .ok s ∧ db.execR s = .ok ())
    (hcm : db.commitR = .ok ()) :
    runMigrations db files
      = ⟨files.map runningLine ++ [successLine], 0, 1, true, files, none⟩ := by
  simp [runMigrations, hconn, runLoop_ok db files h, hcm]

theorem runMigrations_executed_ok (db : DbOracle) (files : List PyStr)
    (hconn : db.connectR = .ok ())
    (h : ∀ f ∈ files, ∃ s, db.readR f = .ok s ∧ db.execR s = .ok ()) :
    (runMigrations db files).executed = files := by
  have hl := runLoop_ok db files h
  cases hcm : db.commitR with
  | error e => simp [runMigrations, hconn, hl, hcm]
  | ok u => simp [runMigrations, hconn, hl, hcm]

theorem sortFiles_isEmpty_false (l : List PyStr) (h : l ≠ []) :
    (sortFiles l).isEmpty = false := by
  cases hsf : sortFiles l with
  | nil =>
      exfalso
      have hp : ([] : List PyStr).Perm l := by
        rw [← hsf]
        exact List.perm_insertionSort _ l
      exact h hp.symm.eq_nil
  | cons a t => rfl

theorem mainRun_dispatch (isFile : Bool) (lines : List PyStr) (env0 : Env)
    (dirFiles : List PyStr) (db : DbOracle) (url : PyStr)
    (hurl : envGet (load_dotenv isFile lines env0) dbKey = some url)
    (hne : url ≠ [])
    (hf : (sortFiles (dirFiles.filter sqlFile)).isEmpty = false) :
    mainRun isFile lines env0 true dirFiles db
      = runMigrations db (sortFiles (dirFiles.filter sqlFile)) := by
  unfold mainRun
  rw [hurl]
  dsimp only
  rw [if_neg (by simpa [List.isEmpty_iff] using hne), Bool.not_true,
    if_neg Bool.false_ne_true, if_neg (by simp [hf])]

/-- C3: when the run reaches execution and every read and execute succeeds,
the files are executed exactly in `sortFiles` order: a sequence that is
sorted under the lexicographic order and is a permutation of the discovered
`*.sql` filenames. -/
theorem execution_order_is_sorted (isFile : Bool) (lines : List PyStr) (env0 : Env)
    (dirFiles : List PyStr) (db : DbOracle) (url : PyStr)
    (hurl : envGet (load_dotenv isFile lines env0) dbKey = some url)
    (hne : url ≠ [])
    (hconn : db.connectR = .ok ())
    (hok : ∀ f, ∃ s, db.readR f = .ok s ∧ db.execR s = .ok ()) :
    (mainRun isFile lines env0 true dirFiles db).executed
        = sortFiles (dirFiles.filter sqlFile) ∧
      List.Sorted (fun a b => lexLe a b = true)
        ((mainRun isFile lines env0 true dirFiles db).executed) ∧
      ((mainRun isFile lines env0 true dirFiles db).executed).Perm
        (dirFiles.filter sqlFile) := by
  by_cases hf : (sortFiles (dirFiles.filter sqlFile)).isEmpty = true
  · have hnil : sortFiles (dirFiles.filter sqlFile) = [] := List.isEmpty_iff.mp hf
    have hfil : dirFiles.filter sqlFile = [] := by
      have hp : ([] : List PyStr).Perm (dirFiles.filter sqlFile) := by
        rw [← hnil]
        exact List.perm_insertionSort _ _
      exact hp.symm.eq_nil
    have hmain : mainRun isFile lines env0 true dirFiles db
        = ⟨[noFilesLine], 1, 0, false, [], none⟩ := by
      unfold mainRun
      rw [hurl]
      dsimp only
      rw [if_neg (by simpa [List.isEmpty_iff] using hne), Bool.not_true,
        if_neg Bool.false_ne_true, if_pos hf]
    rw [hmain, hnil, hfil]
    exact ⟨rfl, List.sorted_nil, List.Perm.refl []⟩
  · have hf2 : (sortFiles (dirFiles.filter sqlFile)).isEmpty = false :=
      Bool.not_eq_true _ ▸ eq_false_of_ne_true hf
    rw [mainRun_dispatch isFile lines env0 dirFiles db url hurl hne hf2,
      runMigrations_executed_ok db _ hconn (fun f _ => hok f)]
    exact ⟨rfl, @List.sorted_insertionSort PyStr (fun a b => lexLe a b = true) _
      ⟨lexLe_total⟩ ⟨lexLe_trans⟩ _, List.perm_insertionSort _ _⟩

/-- C3 witness: two matching files listed out of order are executed in
lexicographic order; the non-matching `readme.txt` is ignored. -/
theorem execution_order_is_sorted_witness :
    envGet (load_dotenv false [] [(dbKey, "u".data)]) dbKey = some "u".data ∧
      ((mainRun false [] [(dbKey, "u".data)] true
          ["002_b.sql".data, "001_a.sql".data, "readme.txt".data] dbAllOk).executed
          = sortFiles (["002_b.sql".data, "001_a.sql".data, "readme.txt".data].filter sqlFile) ∧
        List.Sorted (fun a b => lexLe a b = true)
          ((mainRun false [] [(dbKey, "u".data)] true
            ["002_b.sql".data, "001_a.sql".data, "readme.txt".data] dbAllOk).executed) ∧
        ((mainRun false [] [(dbKey, "u".data)] true
          ["002_b.sql".data, "001_a.sql".data, "readme.txt".data] dbAllOk).executed).Perm
          (["002_b.sql".data, "001_a.sql".data, "readme.txt".data].filter sqlFile)) :=
  ⟨by decide, execution_order_is_sorted false [] [(dbKey, "u".data)]
    ["002_b.sql".data, "001_a.sql".data, "readme.txt".data] dbAllOk "u".data
    (by decide) (by decide) rfl (fun f => ⟨"sql of ".data ++ f, rfl, rfl⟩)⟩

/-- C5 counterexample: one migration file whose SQL executes without error,
yet the commit raises, so nothing is committed and the exit status is 1 --
the claim's hypothesis holds but its conclusion fails. -/
theorem commit_failure_cex :
    (runLoop dbCommitFails ["001_a.sql".data]).2.2 = none ∧
      (mainRun true [] [(dbKey, "u".data)] true ["001_a.sql".data]
        dbCommitFails).executed = ["001_a.sql".data] ∧
      (mainRun true [] [(dbKey, "u".data)] true ["001_a.sql".data]
        dbCommitFails).commits = 0 ∧
      (mainRun true [] [(dbKey, "u".data)] true ["001_a.sql".data]
        dbCommitFails).exitCode = 1 := by
  decide

/-- C5 amended: when the run reaches execution, every file's read and
execute succeed, AND the final commit succeeds, then exactly one commit
happens, `Migrations applied.` is printed exactly once, and the exit
status is 0. -/
theorem all_success_commits_once (isFile : Bool) (lines : List PyStr) (env0 : Env)
    (dirFiles : List PyStr) (db : DbOracle) (url : PyStr)
    (hurl : envGet (load_dotenv isFile lines env0) dbKey = some url)
    (hne : url ≠ [])
    (hfiles : dirFiles.filter sqlFile ≠ [])
    (hconn : db.connectR = .ok ())
    (hok : ∀ f, ∃ s, db.readR f = .ok s ∧ db.execR s = .ok ())
    (hcm : db.commitR = .ok ()) :
    (mainRun isFile lines env0 true dirFiles db).commits = 1 ∧
      (mainRun isFile lines env0 true dirFiles db).output.count successLine = 1 ∧
      (mainRun isFile lines env0 true dirFiles db).exitCode = 0 := by
  rw [mainRun_dispatch isFile lines env0 dirFiles db url hurl hne
      (sortFiles_isEmpty_false _ hfiles),
    runMigrations_all_ok db _ hconn (fun f _ => hok f) hcm]
  refine ⟨rfl, ?_, rfl⟩
  dsimp only
  rw [List.count_append, List.count_eq_zero.mpr
    (success_not_mem_running (sortFiles (dirFiles.filter sqlFile)))]
  rfl

/-- C5 amended witness: two files, all steps succeed: one commit, one
success line, exit 0. -/
theorem all_success_commits_once_witness :
    envGet (load_dotenv false [] [(dbKey, "u".data)]) dbKey = some "u".data ∧
      ((mainRun false [] [(dbKey, "u".data)] true
          ["001_a.sql".data, "002_b.sql".data] dbAllOk).commits = 1 ∧
        (mainRun false [] [(dbKey, "u".data)] true
          ["001_a.sql".data, "002_b.sql".data] dbAllOk).output.count successLine = 1 ∧
        (mainRun false [] [(dbKey, "u".data)] true
          ["001_a.sql".data, "002_b.sql".data] dbAllOk).exitCode = 0) :=
  ⟨by decide, all_success_commits_once false [] [(dbKey, "u".data)]
    ["001_a.sql".data, "002_b.sql".data] dbAllOk "u".data (by decide) (by decide)
    (by decide) rfl (fun f => ⟨"sql of ".data ++ f, rfl, rfl⟩) rfl⟩

theorem runLoop_read_error (db : DbOracle) (pre post : List PyStr) (f e : PyStr)
    (hpre : ∀ g ∈ pre, ∃ s, db.readR g = .ok s ∧ db.execR s = .ok ())
    (hf : db.readR f = .error e) :
    runLoop db (pre ++ f :: post) = (pre.map runningLine, pre, some e) := by
  induction pre with
  | nil => simp [runLoop, hf]
  | cons x xs ih =>
      rcases hpre x (List.mem_cons_self x xs) with ⟨s, hr, he⟩
      simp [runLoop, hr, he, ih (fun g hg => hpre g (List.mem_cons_of_mem x hg))]

/-- C10: when reading a file's text raises (every earlier file having read
and executed cleanly), no `Running <file>...` line is printed for that
file, the exception is caught and reported as `Migration failed: <msg>`,
and the exit status of the try block is 1. -/
theorem read_error_no_progress (db : DbOracle) (pre post : List PyStr) (f e : PyStr)
    (hconn : db.connectR = .ok ())
    (hpre : ∀ g ∈ pre, ∃ s, db.readR g = .ok s ∧ db.execR s = .ok ())
    (hf : db.readR f = .error e)
    (hnotin : f ∉ pre) :
    (runMigrations db (pre ++ f :: post)).output
        = pre.map runningLine ++ [failLine e] ∧
      runningLine f ∉ (runMigrations db (pre ++ f :: post)).output ∧
      (runMigrations db (pre ++ f :: post)).err = some e ∧
      (runMigrations db (pre ++ f :: post)).exitCode = 1 := by
  have hl := runLoop_read_error db pre post f e hpre hf
  have hres : runMigrations db (pre ++ f :: post)
      = ⟨pre.map runningLine ++ [failLine e], 1, 0, true, pre, some e⟩ := by
    simp [runMigrations, hconn, hl]
  rw [hres]
  refine ⟨rfl, ?_, rfl, rfl⟩
  intro hmem
  rcases List.mem_append.mp hmem with hm | hm
  · rcases List.mem_map.mp hm with ⟨g, hg, hgf⟩
    exact hnotin (runningLine_inj g f hgf ▸ hg)
  · exact running_ne_fail f e (List.mem_singleton.mp hm)

/-- C10 witness: the first file runs, the second file's read raises: its
progress line is absent, the failure is reported, exit status 1. -/
theorem read_error_no_progress_witness :
    dbReadFails.connectR = .ok () ∧
      ((runMigrations dbReadFails (["001_a.sql".data] ++ "002_b.sql".data :: [])).output
          = ["001_a.sql".data].map runningLine ++ [failLine "permission denied".data] ∧
        runningLine "002_b.sql".data
          ∉ (runMigrations dbReadFails
              (["001_a.sql".data] ++ "002_b.sql".data :: [])).output ∧
        (runMigrations dbReadFails
          (["001_a.sql".data] ++ "002_b.sql".data :: [])).err
          = some "permission denied".data ∧
        (runMigrations dbReadFails
          (["001_a.sql".data] ++ "002_b.sql".data :: [])).exitCode = 1) :=
  ⟨rfl, read_error_no_progress dbReadFails ["001_a.sql".data] [] "002_b.sql".data
    "permission denied".data rfl
    (fun g hg => by
      rw [List.mem_singleton] at hg
      subst hg
      exact ⟨"sql of ".data ++ "001_a.sql".data, rfl, rfl⟩)
    rfl (by decide)⟩
